import Mathlib

/-!
Verification development for the document-analysis frontend.

The definitions below are a shallow embedding of the TypeScript sources of
the repository: the API layer (`frontend/src/services/api.ts`), the document
view page (`frontend/src/pages/DocumentView.tsx`), the chat interface
(`ChatInterface` component) and the dashboard page.  Effectful TypeScript
functions are modelled as pure state-transformers: network outcomes are
passed in as `Except` values, React state updates become explicit arguments
and results.  Behaviour of the backend that is not part of the sources is
modelled from the specification and marked as such in the doc comment of the
corresponding definition.
-/

namespace FinAnalyst

/-- Wire statuses of a document, the string enum
`UPLOADING | PROCESSING | COMPLETED | ERROR | CANCELLED`. -/
inductive DocStatus where
  | uploading
  | processing
  | completed
  | error
  | cancelled
deriving DecidableEq

/-- Wire encoding of a document status, as carried in `Document.status`. -/
def DocStatus.wire : DocStatus → String
  | .uploading => "UPLOADING"
  | .processing => "PROCESSING"
  | .completed => "COMPLETED"
  | .error => "ERROR"
  | .cancelled => "CANCELLED"

/-- `SourceReference` from `api.ts`: `{page?, snippet?, section?}`. -/
structure SourceReference where
  page : Option Int
  snippet : Option String
  «section» : Option String
deriving DecidableEq

/-- `QuestionResponse` from `api.ts`: one question/answer record of the
conversation history. -/
structure QuestionResponse where
  id : Int
  question_text : String
  answer_text : String
  sources : List SourceReference
  created_at : String
deriving DecidableEq

/-- Role of a chat message, the `type` field of `ChatMessage`. -/
inductive ChatRole where
  | user
  | assistant
deriving DecidableEq

/-- `ChatMessage` from the `ChatInterface` component. An absent optional
`sources` / `isLoading` field of the TypeScript interface is modelled as
`none` / `false`. -/
structure ChatMessage where
  id : Int
  type : ChatRole
  content : String
  sources : Option (List SourceReference)
  timestamp : String
  isLoading : Bool
deriving DecidableEq

/-- The user message pushed by `loadConversationHistory` for one
`QuestionResponse` record (`id: qa.id * 2 - 1`). -/
def userMessageOf (qa : QuestionResponse) : ChatMessage :=
  ⟨2 * qa.id - 1, .user, qa.question_text, none, qa.created_at, false⟩

/-- The assistant message pushed by `loadConversationHistory` for one
`QuestionResponse` record (`id: qa.id * 2`, carrying the sources). -/
def assistantMessageOf (qa : QuestionResponse) : ChatMessage :=
  ⟨2 * qa.id, .assistant, qa.answer_text, some qa.sources, qa.created_at, false⟩

/-- `loadConversationHistory` of the `ChatInterface` component: the `forEach`
loop that pushes, for each history record in order, a user message followed
by an assistant message. -/
def loadConversationHistory : List QuestionResponse → List ChatMessage
  | [] => []
  | qa :: rest => userMessageOf qa :: assistantMessageOf qa :: loadConversationHistory rest

/-- The platform `String.prototype.trim`: removes whitespace from both ends
of a string.  Stated structurally over the character list so that it
evaluates by kernel reduction. -/
def jsTrim (s : String) : String :=
  ⟨((s.data.dropWhile Char.isWhitespace).reverse.dropWhile Char.isWhitespace).reverse⟩

/-- Error answer shown by `handleSendMessage` when `askQuestion` rejects. -/
def errorAnswerText : String :=
  "Sorry, I encountered an error while processing your question. Please try again."

/-- `handleSendMessage` of the `ChatInterface` component, as a transformer of
the `messages` state.  `isLoading` is the React state guarding re-entry,
`now` stands for `Date.now()` (the loading placeholder gets id `now + 1`),
`ts` for `new Date().toISOString()` and `outcome` for the settled promise of
`documentService.askQuestion`.  A rejected promise is caught inside the
handler, so the function is total and never propagates the failure. -/
def handleSendMessage (msgs : List ChatMessage) (isLoading : Bool) (input : String)
    (now : Int) (ts : String) (outcome : Except String QuestionResponse) :
    List ChatMessage :=
  if jsTrim input == "" || isLoading then msgs
  else
    let userMessage : ChatMessage := ⟨now, .user, jsTrim input, none, ts, false⟩
    let loadingMessage : ChatMessage := ⟨now + 1, .assistant, "", none, ts, true⟩
    let pending := msgs ++ [userMessage, loadingMessage]
    match outcome with
    | .ok resp =>
        pending.map fun m =>
          if m.id == now + 1 then
            ⟨m.id, m.type, resp.answer_text, some resp.sources, m.timestamp, false⟩
          else m
    | .error _ =>
        pending.map fun m =>
          if m.id == now + 1 then
            ⟨m.id, m.type, errorAnswerText, m.sources, m.timestamp, false⟩
          else m

/-- `AnalysisResults` from `api.ts`: `key_figures` is a JSON string that the
view parses. -/
structure AnalysisResults where
  summary : Option String
  key_figures : Option String
  vector_db_path : Option String
  error : Option String
deriving DecidableEq

/-- `Document` from `api.ts`. -/
structure Document where
  id : Int
  filename : String
  mime_type : String
  file_size : Int
  status : String
  created_at : String
  updated_at : String
  owner_id : Option Int
  analysis_results : Option AnalysisResults
  error_message : Option String
  processing_step : Option String
deriving DecidableEq

/-- Field names of the `Document` interface declared in `api.ts`. -/
def documentFields : List String :=
  ["id", "filename", "mime_type", "file_size", "status", "created_at",
   "updated_at", "owner_id", "analysis_results", "error_message", "processing_step"]

/-! ## DocumentView status predicates and polling -/

/-- `isProcessing` of `DocumentView.tsx`: the status is `PROCESSING` or
`UPLOADING`. -/
def isProcessingStatus (s : String) : Bool :=
  s == "PROCESSING" || s == "UPLOADING"

/-- `hasError` of `DocumentView.tsx`. -/
def hasErrorStatus (s : String) : Bool :=
  s == "ERROR"

/-- `isCancelled` of `DocumentView.tsx`. -/
def isCancelledStatus (s : String) : Bool :=
  s == "CANCELLED"

/-- Condition under which `DocumentView.tsx` renders the Summary, Key
Figures and Chat tabs (the `ChatInterface`, hence the ask operation, is only
mounted inside these tabs): `!isProcessing && !hasError && !isCancelled`. -/
def showsAnalysisTabs (s : String) : Bool :=
  !(isProcessingStatus s) && !(hasErrorStatus s) && !(isCancelledStatus s)

/-- Condition under which the export icon button of `DocumentView.tsx` is
enabled: it is `disabled={isProcessing || hasError || isCancelled}`. -/
def exportEnabled (s : String) : Bool :=
  !(isProcessingStatus s || hasErrorStatus s || isCancelledStatus s)

/-- Polling-relevant state of `DocumentView`: the status of the last fetched
document and whether the 3-second `setInterval` handle is set. -/
structure DocumentViewPollState where
  lastStatus : Option String
  polling : Bool
deriving DecidableEq

/-- `fetchDocument` of `DocumentView.tsx`, restricted to its effect on the
poll state when the fetch succeeds with a document whose status is
`fetched`: it starts polling if the status is `PROCESSING` and no interval
exists, and stops polling if the status is not `PROCESSING` and an interval
exists. -/
def fetchDocument (st : DocumentViewPollState) (fetched : String) :
    DocumentViewPollState :=
  ⟨some fetched,
    if fetched == "PROCESSING" && !st.polling then true
    else if !(fetched == "PROCESSING") && st.polling then false
    else st.polling⟩

/-- `stopPolling` of `DocumentView.tsx` as invoked through a closure whose
captured `pollingInterval` binding is `captured` (true when the captured
handle is non-null): the body is guarded by `if (pollingInterval)`, so the
interval is cleared only when the captured handle is non-null. -/
def stopPollingWith (captured : Bool) (polling : Bool) : Bool :=
  if captured then false else polling

/-- One tick of the interval installed by `startPolling` in
`DocumentView.tsx`: the callback only runs while the interval exists; it
fetches the document and, when the status is no longer `PROCESSING`, calls
the `stopPolling` it lexically captured — the one of the render in which
`startPolling` ran.  In that render `pollingInterval` was necessarily null
(the `if (pollingInterval) return` guard of `startPolling` reads the same
binding), so the captured handle is null and the call leaves the interval
installed: a tick never stops polling. -/
def pollingTick (st : DocumentViewPollState) (fetched : String) :
    DocumentViewPollState :=
  if st.polling then
    ⟨some fetched,
      if !(fetched == "PROCESSING") then stopPollingWith false st.polling
      else st.polling⟩
  else st

/-! ## Dashboard cancel gating and the cancel / status / export endpoints -/

/-- The platform `String.prototype.toUpperCase`, stated structurally over
the character list so that it evaluates by kernel reduction. -/
def jsToUpper (s : String) : String :=
  ⟨s.data.map Char.toUpper⟩

/-- Condition under which the Dashboard page renders the cancel-processing
button for a document card: `doc.status.toUpperCase() === 'PROCESSING'`. -/
def dashboardShowsCancel (status : String) : Bool :=
  jsToUpper status == "PROCESSING"

/-- Result type of `documentService.cancelProcessing` as declared in
`api.ts`: `Promise<{ message: string }>`. -/
structure CancelResponse where
  message : String
deriving DecidableEq

/-- Field names of the `cancelProcessing` response record declared in
`api.ts`. -/
def cancelResponseFields : List String :=
  ["message"]

/-- Result type of `documentService.getProcessingStatus` as declared in
`api.ts`. -/
structure ProcessingStatus where
  document_id : Int
  status : String
  is_processing : Bool
  can_cancel : Bool
deriving DecidableEq

/-- Field names of the `getProcessingStatus` response record declared in
`api.ts`. -/
def getProcessingStatusFields : List String :=
  ["document_id", "status", "is_processing", "can_cancel"]

/-- Field names of the status record as the specification words it:
`getStatus(document_id) -> {status, processing_step, error_message}`.
This definition follows the specification, for comparison against
`getProcessingStatusFields`, which follows the source. -/
def specGetStatusFields : List String :=
  ["status", "processing_step", "error_message"]

/-- Export formats accepted by `documentService.exportDocument`. -/
inductive ExportFormat where
  | txt
  | csv
deriving DecidableEq

/-- Wire encoding of an export format. -/
def ExportFormat.wire : ExportFormat → String
  | .txt => "txt"
  | .csv => "csv"

/-- The default-parameter rule of `exportDocument(documentId, format = 'csv')`:
an omitted format argument means `csv`. -/
def exportFormatOrDefault (fmt : Option ExportFormat) : ExportFormat :=
  fmt.getD .csv

/-- Result type of `documentService.exportDocument` as declared in `api.ts`:
`Promise<{ export_url: string; expires_at: string }>`. -/
structure ExportResponse where
  export_url : String
  expires_at : String
deriving DecidableEq

/-- Field names of the `exportDocument` response record declared in
`api.ts`. -/
def exportResponseFields : List String :=
  ["export_url", "expires_at"]

/-! ## getDocument and the analysis sub-request -/

/-- Wire payload of `GET /documents/{id}/analysis` as consumed by
`getDocument` in `api.ts`.  The `key_figures` field is passed through
`JSON.stringify`; since stringification is a platform builtin, the field is
modelled as the resulting string. -/
structure AnalysisApiResponse where
  summary : Option String
  key_figures : String
  vector_db_path : Option String
deriving DecidableEq

/-- The guard in `getDocument` under which the follow-up analysis request is
issued: `document.status === 'COMPLETED'`. -/
def fetchesAnalysis (status : String) : Bool :=
  status == "COMPLETED"

/-- `documentService.getDocument` of `api.ts`: `base` is the outcome of the
`GET /documents/{id}` request (its failure is re-thrown) and `analysisFetch`
the outcome of the follow-up `GET /documents/{id}/analysis` request, issued
only when the document status is `COMPLETED`; a failure of the follow-up is
caught and the document is returned unchanged. -/
def getDocument (base : Except String Document)
    (analysisFetch : Except String AnalysisApiResponse) : Except String Document :=
  match base with
  | .error e => .error e
  | .ok doc =>
      if fetchesAnalysis doc.status then
        match analysisFetch with
        | .ok a =>
            .ok ⟨doc.id, doc.filename, doc.mime_type, doc.file_size, doc.status,
                 doc.created_at, doc.updated_at, doc.owner_id,
                 some ⟨a.summary, some a.key_figures, a.vector_db_path, none⟩,
                 doc.error_message, doc.processing_step⟩
        | .error _ => .ok doc
      else .ok doc

/-! ## Status alerts of the document view -/

/-- Severity of a rendered MUI alert. -/
inductive AlertSeverity where
  | error
  | warning
deriving DecidableEq

/-- One alert rendered by `DocumentView.tsx` under the page header. -/
structure StatusAlert where
  severity : AlertSeverity
  title : String
  body : String
deriving DecidableEq

/-- Fallback body of the error alert in `DocumentView.tsx`. -/
def unknownErrorText : String :=
  "An unknown error occurred during document processing."

/-- Body of the cancelled alert in `DocumentView.tsx`, telling the user that
processing can be re-triggered by uploading again. -/
def cancelledAlertText : String :=
  "The document processing was cancelled. You can upload the document again to restart processing."

/-- JavaScript `a || b` on an optional string: an absent or empty string is
falsy and falls through to `b`. -/
def jsStringOr (a : Option String) (b : String) : String :=
  match a with
  | some s => if s == "" then b else s
  | none => b

/-- Body of the error alert:
`document.error_message || document.analysis_results?.error || unknown`. -/
def surfacedErrorText (doc : Document) : String :=
  jsStringOr doc.error_message
    (jsStringOr (doc.analysis_results.bind fun a => a.error) unknownErrorText)

/-- The status alerts rendered by `DocumentView.tsx`: an error alert when
`hasError`, a warning alert when `isCancelled`. -/
def renderStatusAlerts (doc : Document) : List StatusAlert :=
  (if hasErrorStatus doc.status then
    [⟨.error, "Error processing document", surfacedErrorText doc⟩]
   else []) ++
  (if isCancelledStatus doc.status then
    [⟨.warning, "Document processing cancelled", cancelledAlertText⟩]
   else [])

/-! ## Key-figures tab -/

/-- `KeyFigure` from `api.ts`. -/
structure KeyFigure where
  name : String
  value : String
  source_page : Option Int
  source_section : Option String
deriving DecidableEq

/-- JavaScript truthiness of an optional number: absent and `0` are falsy. -/
def jsNumTruthy (n : Option Int) : Bool :=
  match n with
  | some v => !(v == 0)
  | none => false

/-- One rendered key-figure card: value, name and, when shown, the page chip
label. -/
structure KeyFigureCard where
  value : String
  name : String
  pageChip : Option Int
deriving DecidableEq

/-- Rendering of one key figure in the Key Figures tab of
`DocumentView.tsx`: the page chip is guarded by `figure.source_page &&`. -/
def renderKeyFigureCard (f : KeyFigure) : KeyFigureCard :=
  ⟨f.value, f.name, if jsNumTruthy f.source_page then f.source_page else none⟩

/-- Rendered content of the Key Figures tab. -/
inductive KeyFiguresView where
  | noFigures
  | parseFailure
  | cards (cards : List KeyFigureCard)
deriving DecidableEq

/-- The Key Figures tab of `DocumentView.tsx`: when `key_figures` is absent
or empty (falsy) it shows the no-figures text; otherwise the string goes
through `JSON.parse` inside a try/catch whose catch branch renders the
parse-error text.  `parsed` is the outcome of the platform `JSON.parse`
composed with the element mapping (a thrown exception, from invalid JSON or
a non-array value, is the `.error` case). -/
def renderKeyFiguresTab (key_figures : Option String)
    (parsed : Except String (List KeyFigure)) : KeyFiguresView :=
  match key_figures with
  | none => .noFigures
  | some s =>
      if s == "" then .noFigures
      else
        match parsed with
        | .error _ => .parseFailure
        | .ok figs => .cards (figs.map renderKeyFigureCard)

/-! ## Spec-modelled backend behaviour -/

/-- Modelled from the spec: the backend Q&A engine `ask` is not among the
sources (only its frontend callers are).  Per the specification, the
document status must be `COMPLETED`, otherwise the call fails with
`NotReadyError`. -/
inductive QAError where
  | notReady
deriving DecidableEq

/-- Modelled from the spec: `ask(document_id, question_text)` of the backend
Q&A engine, abstracted over the produced answer record; for a document
whose status is not `COMPLETED` it fails with `NotReadyError` and produces
no answer. -/
def ask (status : DocStatus) (answer : QuestionResponse) :
    Except QAError QuestionResponse :=
  if status = .completed then .ok answer else .error .notReady

/-- Modelled from the spec: the backend state machine that maintains
`error_message` is not among the sources.  Per the specification, a document
in `ERROR` state carries a (non-empty, human-readable) `error_message`,
while a document in `CANCELLED` state carries none. -/
def terminalStatusInvariant (doc : Document) : Prop :=
  (doc.status = "ERROR" → ∃ m, doc.error_message = some m ∧ m ≠ "") ∧
  (doc.status = "CANCELLED" → doc.error_message = none)

/-! ## Helper lemmas -/

theorem loadConversationHistory_length (h : List QuestionResponse) :
    (loadConversationHistory h).length = 2 * h.length := by
  induction h with
  | nil => rfl
  | cons qa rest ih =>
      simp only [loadConversationHistory, List.length_cons, ih]
      omega

theorem loadConversationHistory_get (h : List QuestionResponse) (i : Nat) :
    (loadConversationHistory h)[2 * i]? = (h[i]?).map userMessageOf ∧
    (loadConversationHistory h)[2 * i + 1]? = (h[i]?).map assistantMessageOf := by
  induction h generalizing i with
  | nil => simp [loadConversationHistory]
  | cons qa rest ih =>
      cases i with
      | zero => simp [loadConversationHistory]
      | succ n =>
          have h1 : 2 * (n + 1) = 2 * n + 1 + 1 := by ring
          rw [h1]
          simpa [loadConversationHistory, List.getElem?_cons_succ] using ih n

theorem map_fresh_id (msgs : List ChatMessage) (now : Int)
    (hfresh : ∀ m ∈ msgs, m.id ≠ now + 1)
    (g : ChatMessage → ChatMessage)
    (hg : ∀ m, (m.id == now + 1) = false → g m = m) :
    msgs.map g = msgs := by
  have : msgs.map g = msgs.map id := by
    apply List.map_congr_left
    intro m hm
    exact (hg m (beq_eq_false_iff_ne.mpr (hfresh m hm))).trans rfl
  simpa using this

/-! ## Claim theorems -/

/-- C1: a failed ask-question invocation still extends the conversation by
one question/answer pair whose answer is the explanatory `errorAnswerText`;
the failure is handled inside `handleSendMessage` (a total function, so
nothing is raised to its caller); and no invocation of the handler, with any
outcome, ever removes messages already in the conversation — the prior
history is always a prefix of the new one. -/
theorem askFailure_appends_error_pair (msgs : List ChatMessage) (input : String)
    (now : Int) (ts : String) (e : String)
    (hinput : jsTrim input ≠ "")
    (hfresh : ∀ m ∈ msgs, m.id ≠ now + 1) :
    handleSendMessage msgs false input now ts (.error e) =
      msgs ++ [⟨now, .user, jsTrim input, none, ts, false⟩,
               ⟨now + 1, .assistant, errorAnswerText, none, ts, false⟩] ∧
    (∀ (b : Bool) (inp : String) (outcome : Except String QuestionResponse),
      ∃ tail, handleSendMessage msgs b inp now ts outcome = msgs ++ tail) := by
  have hnow : ((now == now + 1) : Bool) = false := by
    rw [beq_eq_false_iff_ne]
    omega
  have hnow1 : ((now + 1 == now + 1) : Bool) = true := by simp
  constructor
  · unfold handleSendMessage
    rw [if_neg (by simp [beq_eq_false_iff_ne.mpr hinput])]
    simp only [List.map_append]
    rw [map_fresh_id msgs now hfresh _ (fun m hm => by simp [hm])]
    simp [hnow, hnow1]
  · intro b inp outcome
    unfold handleSendMessage
    by_cases hg : (jsTrim inp == "" || b) = true
    · rw [if_pos hg]
      exact ⟨[], by simp⟩
    · rw [if_neg hg]
      cases outcome with
      | ok resp =>
          dsimp only
          rw [List.map_append, map_fresh_id msgs now hfresh _ (fun m hm => by simp [hm])]
          exact ⟨_, rfl⟩
      | error e2 =>
          dsimp only
          rw [List.map_append, map_fresh_id msgs now hfresh _ (fun m hm => by simp [hm])]
          exact ⟨_, rfl⟩

/-- Witness for C1 at a concrete failing invocation on an empty history. -/
theorem askFailure_appends_error_pair_witness :
    handleSendMessage [] false "What is the total revenue" 7 "t0" (.error "boom") =
      [⟨7, .user, "What is the total revenue", none, "t0", false⟩,
       ⟨8, .assistant, errorAnswerText, none, "t0", false⟩] := by
  have h := askFailure_appends_error_pair [] "What is the total revenue" 7 "t0" "boom"
      (by decide) (by simp)
  exact h.1.trans (by decide)

/-- C8: rendering a conversation history is an order-preserving
homomorphism: the chat view holds `2 * n` messages for `n` history records,
where record `i` (0-indexed) yields the user message at position `2 * i`
carrying its question text and the assistant message at position `2 * i + 1`
carrying its answer text and sources. -/
theorem conversation_render_homomorphism (h : List QuestionResponse) (i : Nat)
    (qa : QuestionResponse) :
    (loadConversationHistory h).length = 2 * h.length ∧
    (loadConversationHistory h)[2 * i]? = (h[i]?).map userMessageOf ∧
    (loadConversationHistory h)[2 * i + 1]? = (h[i]?).map assistantMessageOf ∧
    ((userMessageOf qa).type = .user ∧ (userMessageOf qa).content = qa.question_text) ∧
    ((assistantMessageOf qa).type = .assistant ∧
      (assistantMessageOf qa).content = qa.answer_text ∧
      (assistantMessageOf qa).sources = some qa.sources) :=
  ⟨loadConversationHistory_length h, (loadConversationHistory_get h i).1,
   (loadConversationHistory_get h i).2, ⟨rfl, rfl⟩, ⟨rfl, rfl, rfl⟩⟩

/-- C2 counterexample: `cancelProcessing` is declared in `api.ts` to resolve
to a `{ message: string }` record, a type that is not — not even up to
bijection — the booleans, so the claim that the returned value is a boolean
fails on the code. -/
theorem cancelResponse_not_bool : ¬ Nonempty (CancelResponse ≃ Bool) := by
  rintro ⟨e⟩
  have h3 : ∀ b1 b2 b3 : Bool, b1 ≠ b2 → b1 ≠ b3 → b2 ≠ b3 → False := by decide
  have hab : (⟨"a"⟩ : CancelResponse) ≠ ⟨"b"⟩ := by decide
  have hac : (⟨"a"⟩ : CancelResponse) ≠ ⟨"c"⟩ := by decide
  have hbc : (⟨"b"⟩ : CancelResponse) ≠ ⟨"c"⟩ := by decide
  exact h3 (e ⟨"a"⟩) (e ⟨"b"⟩) (e ⟨"c"⟩)
    (fun h => hab (e.injective h)) (fun h => hac (e.injective h))
    (fun h => hbc (e.injective h))

/-- C2 amended: `cancelProcessing` resolves to a record whose single field
is the string `message` (not a boolean), and the dashboard renders the
cancel button — hence issues a cancel request — exactly for a document
whose status is `PROCESSING`, so no cancel call originates from a terminal
state. -/
theorem cancelProcessing_message_record_and_dashboard_gating :
    cancelResponseFields = ["message"] ∧
    (∀ s : DocStatus, dashboardShowsCancel s.wire = true ↔ s = .processing) := by
  refine ⟨rfl, fun s => ?_⟩
  cases s <;> decide

/-- C3 counterexample: the record declared for `getProcessingStatus` in
`api.ts` does not consist of the fields `status`, `processing_step` and
`error_message`: the latter two are not among its fields at all. -/
theorem getProcessingStatus_fields_not_spec_shape :
    getProcessingStatusFields ≠ specGetStatusFields ∧
    "processing_step" ∉ getProcessingStatusFields ∧
    "error_message" ∉ getProcessingStatusFields := by
  refine ⟨by decide, by decide, by decide⟩

/-- C3 amended: the status query returns a record with the fields
`document_id`, `status`, `is_processing` and `can_cancel`;
`processing_step` and `error_message` are instead carried on the `Document`
record returned by the document fetch. -/
theorem getProcessingStatus_record_shape :
    getProcessingStatusFields = ["document_id", "status", "is_processing", "can_cancel"] ∧
    "status" ∈ getProcessingStatusFields ∧
    "processing_step" ∈ documentFields ∧
    "error_message" ∈ documentFields :=
  ⟨rfl, by decide, by decide, by decide⟩

/-- C4 counterexample: it is not the case that polling is active whenever
the last fetched status is non-terminal: fetching a document whose status is
`UPLOADING` (non-terminal) leaves polling inactive. -/
theorem polling_not_active_for_uploading :
    ¬ (∀ (st : DocumentViewPollState) (s : String),
        (s = "UPLOADING" ∨ s = "PROCESSING") → (fetchDocument st s).polling = true) := by
  intro hclaim
  exact absurd (hclaim ⟨none, false⟩ "UPLOADING" (Or.inl rfl)) (by decide)

/-- C4 amended: a `fetchDocument` call (whose `stopPolling` closure sees the
current interval handle) leaves polling active exactly when the fetched
status is `PROCESSING` — so the non-terminal `UPLOADING` never starts
polling; but the 3-second interval ticks themselves never stop polling, not
even after a terminal `COMPLETED`, `ERROR` or `CANCELLED` is fetched: the
tick invokes the `stopPolling` captured when the interval was created, whose
`pollingInterval` binding is null, so its guard makes the call a no-op and
polling continues until a current-closure `fetchDocument` (such as the
refresh issued after a cancel request) observes a non-`PROCESSING`
status. -/
theorem polling_tracks_processing_status (st : DocumentViewPollState) (s : String) :
    (fetchDocument st s).polling = (s == "PROCESSING") ∧
    (pollingTick st s).polling = st.polling := by
  constructor
  · unfold fetchDocument
    cases hb : (s == "PROCESSING") <;> cases hp : st.polling <;> simp [hb, hp]
  · unfold pollingTick stopPollingWith
    cases hb : (s == "PROCESSING") <;> cases hp : st.polling <;> simp [hb, hp]

/-- C5: the analysis tabs (which mount the chat interface, the only place
the ask operation is issued) are shown exactly for a `COMPLETED` document;
the follow-up analysis request of `getDocument` is issued exactly for a
`COMPLETED` document; and the spec-modelled backend `ask` succeeds on a
`COMPLETED` document and fails with `NotReadyError`, producing no answer,
on every other status. -/
theorem qa_requires_completed_status (s : DocStatus) (a : QuestionResponse) :
    (showsAnalysisTabs s.wire = true ↔ s = .completed) ∧
    (fetchesAnalysis s.wire = true ↔ s = .completed) ∧
    (ask s a = if s = .completed then .ok a else .error .notReady) := by
  refine ⟨?_, ?_, rfl⟩ <;> cases s <;> decide

/-- C6: `ERROR` and `CANCELLED` are both terminal for the frontend (a fetch
of either status leaves polling inactive) and distinguishable: under the
spec-modelled invariant, an `ERROR` document carries a non-empty
`error_message` which is exactly the body of the rendered error alert,
while a `CANCELLED` document carries no `error_message` and its warning
alert tells the user processing can be re-triggered by uploading again. -/
theorem error_cancelled_terminal_distinguishable (doc : Document)
    (hinv : terminalStatusInvariant doc) :
    (∀ st : DocumentViewPollState,
      (fetchDocument st "ERROR").polling = false ∧
      (fetchDocument st "CANCELLED").polling = false) ∧
    (doc.status = "ERROR" →
      ∃ m, doc.error_message = some m ∧ m ≠ "" ∧
        renderStatusAlerts doc = [⟨.error, "Error processing document", m⟩]) ∧
    (doc.status = "CANCELLED" →
      doc.error_message = none ∧
      renderStatusAlerts doc =
        [⟨.warning, "Document processing cancelled", cancelledAlertText⟩]) := by
  refine ⟨?_, ?_, ?_⟩
  · intro st
    constructor <;> (unfold fetchDocument; cases hp : st.polling <;> simp [hp])
  · intro herr
    obtain ⟨m, hm, hne⟩ := hinv.1 herr
    refine ⟨m, hm, hne, ?_⟩
    unfold renderStatusAlerts surfacedErrorText
    rw [herr]
    simp [hasErrorStatus, isCancelledStatus, jsStringOr, hm,
      beq_eq_false_iff_ne.mpr hne]
  · intro hcan
    refine ⟨hinv.2 hcan, ?_⟩
    unfold renderStatusAlerts
    rw [hcan]
    simp [hasErrorStatus, isCancelledStatus]

/-- Witness for C6 at a concrete `ERROR` document carrying the message
`boom`. -/
theorem error_cancelled_terminal_distinguishable_witness :
    renderStatusAlerts
        ⟨1, "r.pdf", "application/pdf", 10, "ERROR", "c", "u", none, none,
         some "boom", none⟩ =
      [⟨.error, "Error processing document", "boom"⟩] := by
  have h := error_cancelled_terminal_distinguishable
      ⟨1, "r.pdf", "application/pdf", 10, "ERROR", "c", "u", none, none,
       some "boom", none⟩
      ⟨fun _ => ⟨"boom", rfl, by decide⟩, fun hc => absurd hc (by decide)⟩
  obtain ⟨m, hm, hne, halert⟩ := h.2.1 rfl
  have hm2 : some "boom" = some m := hm
  rw [halert, ← Option.some_inj.mp hm2]

/-- C7: the export request format is `txt` or `csv` and defaults to `csv`
when omitted; the response record declared for `exportDocument` has exactly
the fields `export_url` and `expires_at`; and the export button is enabled
exactly for a `COMPLETED` document, hence never while processing nor in the
`ERROR` or `CANCELLED` state. -/
theorem exportAnalysis_contract (s : DocStatus) :
    exportFormatOrDefault none = .csv ∧
    (∀ f, exportFormatOrDefault (some f) = f) ∧
    (∀ f : ExportFormat, f.wire = "txt" ∨ f.wire = "csv") ∧
    exportResponseFields = ["export_url", "expires_at"] ∧
    (exportEnabled s.wire = true ↔
      (isProcessingStatus s.wire = false ∧ hasErrorStatus s.wire = false ∧
        isCancelledStatus s.wire = false)) ∧
    (exportEnabled s.wire = true ↔ s = .completed) := by
  refine ⟨rfl, fun f => rfl, fun f => ?_, rfl, ?_, ?_⟩
  · cases f
    · exact Or.inl rfl
    · exact Or.inr rfl
  · cases s <;> decide
  · cases s <;> decide

/-- C9: when the base fetch of a `COMPLETED` document succeeds but the
follow-up analysis request fails, `getDocument` still returns the document
record — unchanged, so `analysis_results` stays exactly as in the base
response (in particular unset when the base response leaves it unset) —
instead of propagating the sub-request failure. -/
theorem getDocument_swallows_analysis_failure (doc : Document) (e : String)
    (hc : doc.status = "COMPLETED") :
    getDocument (.ok doc) (.error e) = .ok doc ∧
    (getDocument (.ok doc) (.error e)).toOption.bind (fun d => d.analysis_results)
      = doc.analysis_results := by
  constructor <;> simp [getDocument, fetchesAnalysis, hc, Except.toOption, Option.bind]

/-- Witness for C9 at a concrete `COMPLETED` document and a failing
analysis sub-request. -/
theorem getDocument_swallows_analysis_failure_witness :
    getDocument
        (.ok ⟨1, "r.pdf", "application/pdf", 10, "COMPLETED", "c", "u", none,
              none, none, none⟩)
        (.error "analysis down") =
      .ok ⟨1, "r.pdf", "application/pdf", 10, "COMPLETED", "c", "u", none,
           none, none, none⟩ :=
  (getDocument_swallows_analysis_failure _ "analysis down" rfl).1

/-- C10 counterexample: the empty string is not valid JSON (`JSON.parse`
throws on it, the `.error` outcome), yet the key-figures tab renders the
no-figures text, not the parse-error message: the JSX truthiness guard on
`key_figures` short-circuits before `JSON.parse` is reached, so the claim
fails at this input. -/
theorem keyFigures_empty_string_no_parse_error :
    renderKeyFiguresTab (some "") (.error "Unexpected end of JSON input") = .noFigures ∧
    renderKeyFiguresTab (some "") (.error "Unexpected end of JSON input") ≠ .parseFailure :=
  ⟨rfl, by decide⟩

/-- C10 amended: for a non-empty `key_figures` string the key-figures tab
renders the parse-error text whenever the platform parse throws (the
renderer is a total function, so nothing escapes; an empty string is falsy
and renders the no-figures text instead), and renders exactly one card per
figure of a successfully parsed list, each carrying the figure value and
name, with the page chip shown only when `source_page` is present. -/
theorem keyFigures_render_safe (s : String) (e : String) (figs : List KeyFigure)
    (hs : s ≠ "") :
    renderKeyFiguresTab (some s) (.error e) = .parseFailure ∧
    renderKeyFiguresTab (some s) (.ok figs) = .cards (figs.map renderKeyFigureCard) ∧
    (figs.map renderKeyFigureCard).length = figs.length ∧
    (∀ f : KeyFigure, (renderKeyFigureCard f).value = f.value ∧
      (renderKeyFigureCard f).name = f.name ∧
      ((renderKeyFigureCard f).pageChip ≠ none → ∃ p, f.source_page = some p)) := by
  have hsb : (s == "") = false := beq_eq_false_iff_ne.mpr hs
  refine ⟨by simp [renderKeyFiguresTab, hsb], by simp [renderKeyFiguresTab, hsb],
    by simp, fun f => ⟨rfl, rfl, ?_⟩⟩
  intro hchip
  cases hsp : f.source_page with
  | some p => exact ⟨p, rfl⟩
  | none =>
      exact absurd (by simp [renderKeyFigureCard, jsNumTruthy, hsp]) hchip

/-- Witness for C10 at a concrete non-empty string rejected by the parser. -/
theorem keyFigures_render_safe_witness :
    renderKeyFiguresTab (some "not json") (.error "Unexpected token") = .parseFailure :=
  (keyFigures_render_safe "not json" "Unexpected token" [] (by decide)).1

end FinAnalyst
